import Mathlib

/-!
Verification development for the tile pipeline of this repository.

The definitions below are shallow embeddings of the JavaScript sources:

* `GeoTIFF.*` embeds `src/ol/source/GeoTIFF.js` (the raster compositor):
  the constructor's source-count check, the `configure_` consistency
  validation and band-count policy, and the `loadTile_` per-tile pixel
  synthesis loop.
* `OGC.*` embeds `src/ol/source/OGCMapTile.js` (the tile-matrix-set
  resolver): `handleTilesInfoResponse`, `handleTileMatrixSetResponse`
  and the tile-URL function closure.
* `TileTex.*` embeds `ol/webgl/TileTexture.js` (the per-tile GPU texture
  binding) as an explicit state machine counting uploads and emitted
  change events.

JavaScript numbers are modelled as `ℚ` (exact rational arithmetic);
`Uint8ClampedArray` element stores are modelled by `GeoTIFF.toUint8Clamped`
(clamp to 0..255, round half to even) together with `List.set`, which,
like a typed-array indexed store, ignores out-of-range writes.
-/

namespace GeoTIFF

/-- Runtime element type of a raster sample array (the JS typed-array class
of `sourceSamples[sourceIndex][0]`). -/
inductive DataType where
  | int8
  | uint8
  | uint8Clamped
  | int16
  | uint16
  | int32
  | uint32
  | float32
  | other
deriving DecidableEq

/-- Embeds `getMinforDataType` (GeoTIFF.js lines 76-90): the natural minimum
of a sample numeric type, used when no explicit `min` is configured. -/
def getMinforDataType : DataType → ℚ
  | .int8 => -128
  | .int16 => -32768
  | .int32 => -2147483648
  | .float32 => 12 / 10 ^ 39
  | _ => 0

/-- Embeds `getMaxforDataType` (GeoTIFF.js lines 96-122): the natural maximum
of a sample numeric type, used when no explicit `max` is configured. -/
def getMaxforDataType : DataType → ℚ
  | .int8 => 127
  | .uint8 => 255
  | .uint8Clamped => 255
  | .int16 => 32767
  | .uint16 => 65535
  | .int32 => 2147483647
  | .uint32 => 4294967295
  | .float32 => 34 * 10 ^ 37
  | _ => 255

/-- One configured source descriptor (the `SourceInfo` typedef in
GeoTIFF.js): optional rescale bounds and optional nodata sentinel.
`none` models a JS `undefined` field. -/
structure SourceInfo where
  min : Option ℚ
  max : Option ℚ
  nodata : Option ℚ
deriving DecidableEq

instance : Inhabited SourceInfo := ⟨⟨none, none, none⟩⟩

/-- Embeds the constructor's source-count check (GeoTIFF.js lines 150-153):
`if (!(numSources > 0 && numSources < 4)) throw new Error(...)`.
An `Except.error` models the synchronously thrown exception. -/
def checkSourceCount (numSources : ℕ) : Except String Unit :=
  if ¬(numSources > 0 ∧ numSources < 4) then .error "Accepts 1, 2, or 3 sources"
  else .ok ()

/-- The JS `ToUint8Clamp` conversion performed by a `Uint8ClampedArray`
indexed store: clamp to `[0, 255]`, round to nearest, ties to even. -/
def toUint8Clamped (v : ℚ) : ℕ :=
  if v ≤ 0 then 0
  else if 255 ≤ v then 255
  else if v - ⌊v⌋ < 1 / 2 then (⌊v⌋).toNat
  else if (1 : ℚ) / 2 < v - ⌊v⌋ then (⌊v⌋).toNat + 1
  else if ⌊v⌋ % 2 = 0 then (⌊v⌋).toNat else (⌊v⌋).toNat + 1

/-- The inputs of one `loadTile_` invocation that the pixel loop
(GeoTIFF.js lines 349-401) depends on: the configured source descriptors,
the runtime sample type of each source's first band array, the shared
samples-per-pixel count, and the tile size in pixels. -/
structure LoadInput where
  sourceInfo : List SourceInfo
  dataTypes : List DataType
  samplesPerPixel : ℕ
  sizeX : ℕ
  sizeY : ℕ

/-- Raw sample arrays: `ss[sourceIndex][sampleIndex][pixelIndex]`, the shape
produced by `image.readRasters` for each source. -/
abbrev Samples := List (List (List ℚ))

/-- Embeds the `addAlpha` flag (lines 324-332): true when any source has a
configured nodata sentinel. -/
def addAlpha (inp : LoadInput) : Bool :=
  inp.sourceInfo.any fun s => s.nodata.isSome

def sourceCount (inp : LoadInput) : ℕ := inp.sourceInfo.length

/-- Embeds the `additionalBands` computation (lines 335-344). -/
def additionalBands (inp : LoadInput) : ℕ :=
  if addAlpha inp then
    if sourceCount inp = 1 ∧ inp.samplesPerPixel = 1 then 3
    else if sourceCount inp = 2 ∧ inp.samplesPerPixel = 1 then 2
    else 1
  else 0

/-- `bandCount = samplesPerPixel * sourceCount + additionalBands` (line 345). -/
def bandCount (inp : LoadInput) : ℕ :=
  inp.samplesPerPixel * sourceCount inp + additionalBands inp

def pixelCount (inp : LoadInput) : ℕ := inp.sizeX * inp.sizeY

def dataLength (inp : LoadInput) : ℕ := pixelCount inp * bandCount inp

/-- Effective minimum: `source.min`, else the natural minimum of the
source's sample type (lines 356-359). -/
def effMin (inp : LoadInput) (si : ℕ) : ℚ :=
  match (inp.sourceInfo.getD si default).min with
  | some v => v
  | none => getMinforDataType (inp.dataTypes.getD si .other)

/-- Effective maximum: `source.max`, else the natural maximum of the
source's sample type (lines 360-363). -/
def effMax (inp : LoadInput) (si : ℕ) : ℚ :=
  match (inp.sourceInfo.getD si default).max with
  | some v => v
  | none => getMaxforDataType (inp.dataTypes.getD si .other)

/-- `gain = 255 / (max - min)` (line 365). -/
def gain (inp : LoadInput) (si : ℕ) : ℚ := 255 / (effMax inp si - effMin inp si)

/-- `bias = -min * gain` (line 366). -/
def bias (inp : LoadInput) (si : ℕ) : ℚ := -(effMin inp si) * gain inp si

/-- `sourceSamples[sourceIndex][sampleIndex][pixelIndex]` (line 376-377). -/
def sampleAt (ss : Samples) (si k pixelIndex : ℕ) : ℚ :=
  ((ss.getD si []).getD k []).getD pixelIndex 0

/-- One iteration of the innermost sample loop (lines 371-392), acting on
the accumulated `(data, transparent)` pair.  The buffer index follows the
source exactly: `sampleOffset = pixelIndex * bandCount + sourceIndex *
samplesPerPixel` and the write goes to `sampleOffset + sampleIndex`. -/
def writeSample (inp : LoadInput) (ss : Samples) (pixelIndex si : ℕ)
    (acc : List ℕ × Bool) (k : ℕ) : List ℕ × Bool :=
  let data := acc.1
  let transparent := acc.2
  let sampleOffset := pixelIndex * bandCount inp + si * inp.samplesPerPixel
  let sourceValue := sampleAt ss si k pixelIndex
  let value := gain inp si * sourceValue + bias inp si
  if addAlpha inp = false then
    (data.set (sampleOffset + k) (toUint8Clamped value), transparent)
  else
    if ((inp.sourceInfo.getD si default).nodata.all fun nd => sourceValue != nd) then
      let data := data.set (sampleOffset + k) (toUint8Clamped value)
      let data :=
        if additionalBands inp = 3 then
          (data.set (sampleOffset + k + 1) (toUint8Clamped value)).set
            (sampleOffset + k + 2) (toUint8Clamped value)
        else data
      (data, false)
    else (data, transparent)

/-- One iteration of the per-source loop inside the pixel loop
(lines 354-397): run the sample loop, then the opacity write
`if (addAlpha && !transparent) data[sampleOffset + 3] = 255` (lines 394-396),
which uses the same source-relative `sampleOffset`. -/
def processSource (inp : LoadInput) (ss : Samples) (pixelIndex : ℕ)
    (acc : List ℕ × Bool) (si : ℕ) : List ℕ × Bool :=
  let acc := (List.range inp.samplesPerPixel).foldl (writeSample inp ss pixelIndex si) acc
  let sampleOffset := pixelIndex * bandCount inp + si * inp.samplesPerPixel
  if addAlpha inp && !acc.2 then (acc.1.set (sampleOffset + 3) 255, acc.2)
  else acc

/-- One iteration of the pixel loop (lines 351-398): `transparent` restarts
at `addAlpha` for each pixel. -/
def processPixel (inp : LoadInput) (ss : Samples) (data : List ℕ)
    (pixelIndex : ℕ) : List ℕ :=
  ((List.range (sourceCount inp)).foldl (processSource inp ss pixelIndex)
    (data, addAlpha inp)).1

/-- The synthesized output buffer of `loadTile_` (lines 349-401): a
`Uint8ClampedArray(dataLength)` (zero-initialized) written by the pixel
loop. -/
def loadTileData (inp : LoadInput) (ss : Samples) : List ℕ :=
  (List.range (pixelCount inp)).foldl (processPixel inp ss)
    (List.replicate (dataLength inp) 0)

/-- Failing input for the nodata/alpha claim: two single-band sources, both
with nodata sentinel 0 and range 0..255, on a 2x1 tile.  Source 0 reads
`[0, 0]`, source 1 reads `[5, 0]`. -/
def c1inp : LoadInput :=
  { sourceInfo := [⟨some 0, some 255, some 0⟩, ⟨some 0, some 255, some 0⟩]
    dataTypes := [.uint8, .uint8]
    samplesPerPixel := 1
    sizeX := 2
    sizeY := 1 }

def c1ss : Samples := [[[0, 0]], [[5, 0]]]

/-- C1: evaluation of the pixel loop at the failing input.  The band layout
is 4 bands per pixel (2 value bands + 2 padding, band 3 the alpha band).
Pixel 0 has a non-sentinel sample (5 in source 1), yet its alpha band
(index 3) is 0: the opacity write for source 1 lands at index
`sampleOffset + 3 = 4`, which is band 0 of pixel 1 — corrupting a pixel
whose samples all equal the sentinel and should have stayed at 0. -/
theorem c1_eval :
    loadTileData c1inp c1ss = [0, 5, 0, 0, 255, 0, 0, 0] ∧
      (loadTileData c1inp c1ss).getD 3 0 = 0 ∧
      (loadTileData c1inp c1ss).getD 4 0 = 255 := by
  have hr2 : List.range 2 = [0, 1] := rfl
  have hr1 : List.range 1 = [0] := rfl
  have hrep : List.replicate (dataLength c1inp) 0 = [0, 0, 0, 0, 0, 0, 0, 0] := rfl
  have h : loadTileData c1inp c1ss = [0, 5, 0, 0, 255, 0, 0, 0] := by
    unfold loadTileData
    norm_num [c1inp, c1ss, processPixel, processSource, writeSample, addAlpha,
      additionalBands, bandCount, pixelCount, dataLength, sourceCount, gain, bias,
      effMin, effMax, sampleAt, toUint8Clamped, hr2, hr1]
    decide
  exact ⟨h, by rw [h]; decide, by rw [h]; decide⟩

/-- C7: the constructor accepts exactly 1, 2 or 3 sources: the count check
throws precisely when the descriptor list has length 0 or at least 4, and
succeeds precisely on lengths 1..3. -/
theorem c7_source_count (n : ℕ) :
    (checkSourceCount n = .error "Accepts 1, 2, or 3 sources" ↔ (n = 0 ∨ 4 ≤ n)) ∧
      (checkSourceCount n = .ok () ↔ (1 ≤ n ∧ n ≤ 3)) := by
  unfold checkSourceCount
  constructor
  · constructor
    · intro h
      by_contra hc
      push_neg at hc
      rw [if_neg (by omega)] at h
      exact Except.noConfusion h
    · intro h
      rw [if_pos (by omega)]
  · constructor
    · intro h
      by_contra hc
      push_neg at hc
      rw [if_pos (by omega)] at h
      exact Except.noConfusion h
    · intro h
      rw [if_neg (by omega)]

end GeoTIFF

namespace GeoTIFF

theorem getD_set_ne (l : List ℕ) (i j v d : ℕ) (h : i ≠ j) :
    (l.set i v).getD j d = l.getD j d := by
  simp [List.getD_eq_getElem?_getD, List.getElem?_set_ne h]

theorem getD_set_self (l : List ℕ) (i v d : ℕ) (h : i < l.length) :
    (l.set i v).getD i d = v := by
  simp [List.getD_eq_getElem?_getD, List.getElem?_set_self, h]

/-- A run of `n` consecutive byte stores starting at index `b`, the shape of
the innermost sample loop of `loadTile_` when no alpha synthesis happens. -/
def setRun (data : List ℕ) (b : ℕ) (f : ℕ → ℕ) (n : ℕ) : List ℕ :=
  (List.range n).foldl (fun d k => d.set (b + k) (f k)) data

theorem setRun_succ (data : List ℕ) (b : ℕ) (f : ℕ → ℕ) (n : ℕ) :
    setRun data b f (n + 1) = (setRun data b f n).set (b + n) (f n) := by
  unfold setRun
  rw [List.range_succ, List.foldl_append]
  rfl

theorem length_setRun (data : List ℕ) (b : ℕ) (f : ℕ → ℕ) (n : ℕ) :
    (setRun data b f n).length = data.length := by
  induction n with
  | zero => rfl
  | succ n ih => rw [setRun_succ, List.length_set, ih]

theorem getD_setRun_out (data : List ℕ) (b : ℕ) (f : ℕ → ℕ) (n i d : ℕ)
    (h : i < b ∨ b + n ≤ i) :
    (setRun data b f n).getD i d = data.getD i d := by
  induction n with
  | zero => rfl
  | succ n ih =>
    rw [setRun_succ, getD_set_ne _ _ _ _ _ (by omega), ih (by omega)]

theorem getD_setRun_at (data : List ℕ) (b : ℕ) (f : ℕ → ℕ) (n k d : ℕ)
    (hk : k < n) (hlen : b + k < data.length) :
    (setRun data b f n).getD (b + k) d = f k := by
  induction n with
  | zero => omega
  | succ n ih =>
    rw [setRun_succ]
    rcases Nat.lt_or_ge k n with hlt | hge
    · rw [getD_set_ne _ _ _ _ _ (by omega), ih hlt]
    · have hkn : k = n := by omega
      subst hkn
      exact getD_set_self _ _ _ _ (by rw [length_setRun]; omega)

/-- `m` disjoint runs of length `spp` laid out contiguously from `base`,
the shape of the per-source loop of `loadTile_` for one pixel when no
alpha synthesis happens. -/
def setBlocks (data : List ℕ) (base spp : ℕ) (F : ℕ → ℕ → ℕ) (m : ℕ) : List ℕ :=
  (List.range m).foldl (fun d si => setRun d (base + si * spp) (F si) spp) data

theorem setBlocks_succ (data : List ℕ) (base spp : ℕ) (F : ℕ → ℕ → ℕ) (m : ℕ) :
    setBlocks data base spp F (m + 1) =
      setRun (setBlocks data base spp F m) (base + m * spp) (F m) spp := by
  unfold setBlocks
  rw [List.range_succ, List.foldl_append]
  rfl

theorem length_setBlocks (data : List ℕ) (base spp : ℕ) (F : ℕ → ℕ → ℕ) (m : ℕ) :
    (setBlocks data base spp F m).length = data.length := by
  induction m with
  | zero => rfl
  | succ m ih => rw [setBlocks_succ, length_setRun, ih]

theorem getD_setBlocks_out (data : List ℕ) (base spp : ℕ) (F : ℕ → ℕ → ℕ)
    (m i d : ℕ) (h : i < base ∨ base + m * spp ≤ i) :
    (setBlocks data base spp F m).getD i d = data.getD i d := by
  induction m with
  | zero => rfl
  | succ m ih =>
    rw [setBlocks_succ, getD_setRun_out _ _ _ _ _ _ (by
      rcases h with h | h
      · exact Or.inl (by omega)
      · right
        have : base + (m + 1) * spp = base + m * spp + spp := by ring
        omega)]
    exact ih (by
      rcases h with h | h
      · exact Or.inl h
      · right
        have : base + (m + 1) * spp = base + m * spp + spp := by ring
        omega)

theorem getD_setBlocks_at (data : List ℕ) (base spp : ℕ) (F : ℕ → ℕ → ℕ)
    (m si k d : ℕ) (hsi : si < m) (hk : k < spp)
    (hlen : base + si * spp + k < data.length) :
    (setBlocks data base spp F m).getD (base + si * spp + k) d = F si k := by
  induction m with
  | zero => omega
  | succ m ih =>
    rw [setBlocks_succ]
    rcases Nat.lt_or_ge si m with hlt | hge
    · have hbound : si * spp + k < m * spp := by
        have h1 : si * spp + k < (si + 1) * spp := by
          rw [Nat.succ_mul]
          omega
        exact lt_of_lt_of_le h1 (Nat.mul_le_mul_right spp hlt)
      rw [getD_setRun_out _ _ _ _ _ _ (Or.inl (by omega))]
      exact ih hlt
    · have hsm : si = m := by omega
      subst hsm
      have := getD_setRun_at (setBlocks data base spp F si) (base + si * spp) (F si)
        spp k d hk (by rw [length_setBlocks]; omega)
      exact this

theorem foldl_pair_fst {step : List ℕ × Bool → ℕ → List ℕ × Bool}
    {g : List ℕ → ℕ → List ℕ}
    (hstep : ∀ a t k, step (a, t) k = (g a k, t)) (l : List ℕ) (a : List ℕ) (t : Bool) :
    l.foldl step (a, t) = (l.foldl g a, t) := by
  induction l generalizing a with
  | nil => rfl
  | cons x xs ih => rw [List.foldl_cons, List.foldl_cons, hstep, ih]

theorem bandCount_noAlpha (inp : LoadInput) (hno : addAlpha inp = false) :
    bandCount inp = inp.samplesPerPixel * sourceCount inp := by
  simp [bandCount, additionalBands, hno]

theorem writeSample_noAlpha (inp : LoadInput) (ss : Samples) (pixelIndex si : ℕ)
    (hno : addAlpha inp = false) (acc : List ℕ × Bool) (k : ℕ) :
    writeSample inp ss pixelIndex si acc k =
      (acc.1.set (pixelIndex * bandCount inp + si * inp.samplesPerPixel + k)
        (toUint8Clamped (gain inp si * sampleAt ss si k pixelIndex + bias inp si)),
        acc.2) := by
  unfold writeSample
  rw [if_pos hno]

theorem processSource_noAlpha (inp : LoadInput) (ss : Samples) (pixelIndex : ℕ)
    (hno : addAlpha inp = false) (data : List ℕ) (t : Bool) (si : ℕ) :
    processSource inp ss pixelIndex (data, t) si =
      (setRun data (pixelIndex * bandCount inp + si * inp.samplesPerPixel)
        (fun k => toUint8Clamped (gain inp si * sampleAt ss si k pixelIndex + bias inp si))
        inp.samplesPerPixel, t) := by
  unfold processSource
  have hfold :
      (List.range inp.samplesPerPixel).foldl (writeSample inp ss pixelIndex si) (data, t) =
        ((List.range inp.samplesPerPixel).foldl
          (fun d k => d.set (pixelIndex * bandCount inp + si * inp.samplesPerPixel + k)
            (toUint8Clamped (gain inp si * sampleAt ss si k pixelIndex + bias inp si))) data,
          t) :=
    foldl_pair_fst (fun a tt k => writeSample_noAlpha inp ss pixelIndex si hno (a, tt) k) _ _ _
  rw [hfold, hno]
  rfl

theorem processPixel_noAlpha (inp : LoadInput) (ss : Samples) (pixelIndex : ℕ)
    (hno : addAlpha inp = false) (data : List ℕ) :
    processPixel inp ss data pixelIndex =
      setBlocks data (pixelIndex * bandCount inp) inp.samplesPerPixel
        (fun si k => toUint8Clamped (gain inp si * sampleAt ss si k pixelIndex + bias inp si))
        (sourceCount inp) := by
  unfold processPixel setBlocks
  rw [hno]
  have hfold :=
    foldl_pair_fst (g := fun d si =>
        setRun d (pixelIndex * bandCount inp + si * inp.samplesPerPixel)
          (fun k => toUint8Clamped (gain inp si * sampleAt ss si k pixelIndex + bias inp si))
          inp.samplesPerPixel)
      (fun a tt si => processSource_noAlpha inp ss pixelIndex hno a tt si)
      (List.range (sourceCount inp)) data false
  rw [hfold]

/-- The pixel loop truncated to its first `n` iterations. -/
def pixelsFold (inp : LoadInput) (ss : Samples) (data : List ℕ) (n : ℕ) : List ℕ :=
  (List.range n).foldl (processPixel inp ss) data

theorem pixelsFold_succ (inp : LoadInput) (ss : Samples) (data : List ℕ) (n : ℕ) :
    pixelsFold inp ss data (n + 1) =
      processPixel inp ss (pixelsFold inp ss data n) n := by
  unfold pixelsFold
  rw [List.range_succ, List.foldl_append]
  rfl

theorem length_pixelsFold (inp : LoadInput) (ss : Samples) (data : List ℕ) (n : ℕ)
    (hno : addAlpha inp = false) :
    (pixelsFold inp ss data n).length = data.length := by
  induction n with
  | zero => rfl
  | succ n ih =>
    rw [pixelsFold_succ, processPixel_noAlpha inp ss n hno, length_setBlocks, ih]

theorem getD_pixelsFold_at (inp : LoadInput) (ss : Samples) (data : List ℕ)
    (n pixelIndex si k : ℕ) (hno : addAlpha inp = false)
    (hpi : pixelIndex < n) (hsi : si < sourceCount inp) (hk : k < inp.samplesPerPixel)
    (hlen : pixelIndex * bandCount inp + si * inp.samplesPerPixel + k < data.length) :
    (pixelsFold inp ss data n).getD
        (pixelIndex * bandCount inp + si * inp.samplesPerPixel + k) 0 =
      toUint8Clamped (gain inp si * sampleAt ss si k pixelIndex + bias inp si) := by
  induction n with
  | zero => omega
  | succ n ih =>
    rw [pixelsFold_succ, processPixel_noAlpha inp ss n hno]
    rcases Nat.lt_or_ge pixelIndex n with hlt | hge
    · have hin : si * inp.samplesPerPixel + k < sourceCount inp * inp.samplesPerPixel := by
        have h1 : si * inp.samplesPerPixel + k < (si + 1) * inp.samplesPerPixel := by
          rw [Nat.succ_mul]
          omega
        exact lt_of_lt_of_le h1 (Nat.mul_le_mul_right _ hsi)
      have hout : pixelIndex * bandCount inp + si * inp.samplesPerPixel + k
          < n * bandCount inp := by
        have hbc : bandCount inp = inp.samplesPerPixel * sourceCount inp :=
          bandCount_noAlpha inp hno
        have h2 : pixelIndex * bandCount inp + si * inp.samplesPerPixel + k
            < (pixelIndex + 1) * bandCount inp := by
          rw [Nat.succ_mul]
          rw [hbc, Nat.mul_comm inp.samplesPerPixel (sourceCount inp)] at *
          omega
        exact lt_of_lt_of_le h2 (Nat.mul_le_mul_right _ hlt)
      rw [getD_setBlocks_out _ _ _ _ _ _ _ (Or.inl hout)]
      exact ih hlt
    · have hpn : pixelIndex = n := by omega
      subst hpn
      have := getD_setBlocks_at (pixelsFold inp ss data pixelIndex)
        (pixelIndex * bandCount inp) inp.samplesPerPixel
        (fun si k => toUint8Clamped (gain inp si * sampleAt ss si k pixelIndex + bias inp si))
        (sourceCount inp) si k 0 hsi hk
        (by rw [length_pixelsFold inp ss data pixelIndex hno]; omega)
      exact this

/-- C2: when no source configures a nodata sentinel, every stored output
byte is the linear rescale of the corresponding raw sample: at pixel
`pixelIndex`, source `si`, band `k`, the output buffer holds
`toUint8Clamped (gain * sample + bias)` where `gain = 255 / (max - min)`,
`bias = -min * gain`, and `min`/`max` are the configured values or the
natural range of the sample's numeric type.  The buffer has the fixed
width `dataLength`. -/
theorem c2_rescale (inp : LoadInput) (ss : Samples) (pixelIndex si k : ℕ)
    (hno : addAlpha inp = false)
    (hpi : pixelIndex < pixelCount inp) (hsi : si < sourceCount inp)
    (hk : k < inp.samplesPerPixel) :
    (loadTileData inp ss).length = dataLength inp ∧
      (loadTileData inp ss).getD
          (pixelIndex * bandCount inp + si * inp.samplesPerPixel + k) 0 =
        toUint8Clamped (gain inp si * sampleAt ss si k pixelIndex + bias inp si) := by
  have hld : loadTileData inp ss =
      pixelsFold inp ss (List.replicate (dataLength inp) 0) (pixelCount inp) := rfl
  have hidx : pixelIndex * bandCount inp + si * inp.samplesPerPixel + k
      < dataLength inp := by
    have hbc : bandCount inp = inp.samplesPerPixel * sourceCount inp :=
      bandCount_noAlpha inp hno
    have h1 : si * inp.samplesPerPixel + k < (si + 1) * inp.samplesPerPixel := by
      rw [Nat.succ_mul]
      omega
    have h2 : (si + 1) * inp.samplesPerPixel ≤ sourceCount inp * inp.samplesPerPixel :=
      Nat.mul_le_mul_right _ hsi
    have h3 : pixelIndex * bandCount inp + si * inp.samplesPerPixel + k
        < (pixelIndex + 1) * bandCount inp := by
      rw [Nat.succ_mul]
      rw [hbc, Nat.mul_comm inp.samplesPerPixel (sourceCount inp)] at *
      omega
    have h4 : (pixelIndex + 1) * bandCount inp ≤ pixelCount inp * bandCount inp :=
      Nat.mul_le_mul_right _ hpi
    unfold dataLength
    omega
  constructor
  · rw [hld, length_pixelsFold inp ss _ _ hno, List.length_replicate]
  · rw [hld]
    exact getD_pixelsFold_at inp ss _ (pixelCount inp) pixelIndex si k hno hpi hsi hk
      (by rw [List.length_replicate]; exact hidx)

/-- Single uint8 source, range 0..255, no nodata, 1x1 tile with raw sample
128 (the first rescaling example). -/
def c2inpA : LoadInput :=
  { sourceInfo := [⟨some 0, some 255, none⟩]
    dataTypes := [.uint8]
    samplesPerPixel := 1
    sizeX := 1
    sizeY := 1 }

/-- Single uint8 source, range 100..200, no nodata, 1x1 tile with raw
sample 0 (the second rescaling example). -/
def c2inpB : LoadInput :=
  { sourceInfo := [⟨some 100, some 200, none⟩]
    dataTypes := [.uint8]
    samplesPerPixel := 1
    sizeX := 1
    sizeY := 1 }

/-- C2 witness: raw sample 128 with min 0, max 255 yields output byte 128
(gain 1, bias 0), and raw sample 0 with min 100, max 200 yields output
byte 0 (value -255, clipped by the byte store). -/
theorem c2_rescale_witness :
    (loadTileData c2inpA [[[128]]]).getD 0 0 = 128 ∧
      (loadTileData c2inpB [[[0]]]).getD 0 0 = 0 := by
  have hA := (c2_rescale c2inpA [[[128]]] 0 0 0 (by decide) (by decide) (by decide)
    (by decide)).2
  have hB := (c2_rescale c2inpB [[[0]]] 0 0 0 (by decide) (by decide) (by decide)
    (by decide)).2
  norm_num [c2inpA, c2inpB, gain, bias, effMin, effMax, sampleAt, toUint8Clamped] at hA hB
  constructor
  · exact hA
  · exact hB

/-- One decoded image of a source GeoTIFF: the accessors that `configure_`
(GeoTIFF.js lines 194-311) reads.  `resolution0` stands for the value of
`image.getResolution(images[0])[0]`. -/
structure Image where
  samplesPerPixel : ℕ
  boundingBox : List ℚ
  origin : List ℚ
  resolution0 : ℚ
  tileWidth : ℕ
  tileHeight : ℕ
deriving DecidableEq

/-- JS template interpolation of a numeric array: comma-joined entries. -/
def qJoin (l : List ℚ) : String := String.intercalate "," (l.map toString)

/-- JS template interpolation of a possibly-undefined numeric array. -/
def qOptJoin : Option (List ℚ) → String
  | none => "undefined"
  | some l => qJoin l

/-- The per-image samples-per-pixel consistency check of `configure_`
(lines 213-219).  The accumulator starts as JS `undefined`; since both
`undefined` and `0` are falsy under the `!samplesPerPixel` test, the unset
accumulator is modelled as `0`. -/
def checkImagesSpp (spp0 si : ℕ) : List Image → Except String ℕ
  | [] => .ok spp0
  | im :: rest =>
    if spp0 = 0 then checkImagesSpp im.samplesPerPixel si rest
    else if im.samplesPerPixel = spp0 then checkImagesSpp spp0 si rest
    else .error ("Band count mismatch for source " ++ toString si ++ ", got "
      ++ toString im.samplesPerPixel ++ " but expected " ++ toString spp0)

/-- `sourceExtent`: the first image's bounding box (lines 222-224). -/
def sourceExtentOf (images : List Image) : Option (List ℚ) :=
  images.head?.map fun im => im.boundingBox

/-- `sourceOrigin`: the first two entries of the first image's origin
(lines 226-228). -/
def sourceOriginOf (images : List Image) : Option (List ℚ) :=
  images.head?.map fun im => im.origin.take 2

/-- `sourceResolutions[level]` with `level = imageCount - (imageIndex + 1)`:
the per-image resolutions in reversed (coarsest-first) order (line 230). -/
def sourceResolutionsOf (images : List Image) : List ℚ :=
  (images.map fun im => im.resolution0).reverse

/-- `sourceTileSizes[level]`, reversed like the resolutions (line 231). -/
def sourceTileSizesOf (images : List Image) : List (ℕ × ℕ) :=
  (images.map fun im => (im.tileWidth, im.tileHeight)).reverse

/-- One cross-source `assertEqual` guarded by the `if (!x) x = got` pattern
(lines 234-263): an unset accumulator (JS `undefined`, modelled `none`)
adopts the incoming value, a set accumulator must match it exactly. -/
def assertAcc {α : Type} [DecidableEq α] (acc got : Option α) (msg : String) :
    Except String (Option α) :=
  match acc with
  | none => .ok got
  | some e =>
    match got with
    | some g => if e = g then .ok acc else .error msg
    | none => .error msg

/-- The accumulated state of the `configure_` source loop. -/
structure ConfigAcc where
  spp : ℕ
  extent : Option (List ℚ)
  origin : Option (List ℚ)
  tileSizes : Option (List (ℕ × ℕ))
  resolutions : Option (List ℚ)
deriving DecidableEq

def initialAcc : ConfigAcc := ⟨0, none, none, none, none⟩

/-- One iteration of the `configure_` source loop (lines 202-266): the
per-image samples-per-pixel check, then the extent, origin, tile-size and
resolution cross-source assertions, in source order. -/
def configureSource (acc : ConfigAcc) (si : ℕ) (images : List Image) :
    Except String ConfigAcc :=
  match checkImagesSpp acc.spp si images with
  | .error e => .error e
  | .ok spp =>
    match assertAcc acc.extent (sourceExtentOf images)
        ("Extent mismatch for source " ++ toString si ++ ", got ["
          ++ qOptJoin (sourceExtentOf images) ++ "] but expected ["
          ++ qOptJoin acc.extent ++ "]") with
    | .error e => .error e
    | .ok extent =>
      match assertAcc acc.origin (sourceOriginOf images)
          ("Origin mismatch for source " ++ toString si ++ ", got ["
            ++ qOptJoin (sourceOriginOf images) ++ "] but expected ["
            ++ qOptJoin acc.origin ++ "]") with
      | .error e => .error e
      | .ok origin =>
        match assertAcc acc.tileSizes (some (sourceTileSizesOf images))
            ("Tile size mismatch for source " ++ toString si) with
        | .error e => .error e
        | .ok tileSizes =>
          match assertAcc acc.resolutions (some (sourceResolutionsOf images))
              ("Resolution mismatch for source " ++ toString si ++ ", got ["
                ++ qJoin (sourceResolutionsOf images) ++ "] but expected ["
                ++ qOptJoin acc.resolutions ++ "]") with
          | .error e => .error e
          | .ok resolutions => .ok ⟨spp, extent, origin, tileSizes, resolutions⟩

/-- The `configure_` source loop over all sources, threading the source
index. -/
def configureLoop : ConfigAcc → ℕ → List (List Image) → Except String ConfigAcc
  | acc, _, [] => .ok acc
  | acc, si, images :: rest =>
    match configureSource acc si images with
    | .error e => .error e
    | .ok acc2 => configureLoop acc2 (si + 1) rest

/-- The band-count policy of `configure_` (lines 280-296): a single source
must have 1, 3 or 4 samples per pixel; multiple sources must be
single-band. -/
def checkBandPolicy (numSources spp : ℕ) : Except String Unit :=
  if numSources = 1 then
    if ¬(spp = 1 ∨ spp = 3 ∨ spp = 4) then
      .error ("Expected a grayscale, RGB, or RGBA source, found "
        ++ toString spp ++ " samples per pixel")
    else .ok ()
  else if spp ≠ 1 then
    .error "Expected single band GeoTIFFs when using multiple sources"
  else .ok ()

/-- The validation performed by `configure_`: the source loop followed by
the band-count policy.  (The projection geo-key lookup between the two,
lines 268-278, performs no validation and is not modelled.) -/
def configure (sources : List (List Image)) : Except String ConfigAcc :=
  match configureLoop initialAcc 0 sources with
  | .error e => .error e
  | .ok acc =>
    match checkBandPolicy sources.length acc.spp with
    | .error e => .error e
    | .ok _ => .ok acc

/-- Component states (`ol/source/State.js`). -/
inductive SrcState where
  | LOADING
  | READY
  | ERROR
deriving DecidableEq

/-- The constructor's promise pipeline (GeoTIFF.js lines 174-182):
`Promise.all(requests).then(sources => configure_(sources)).catch(error =>
{ error_ = error; setState(ERROR); })`.  An exception thrown by
`configure_` inside the `then` callback rejects the chain, so the `catch`
captures it and puts the component in the terminal ERROR state; on success
`configure_` itself sets READY. -/
def resolveConfigure (sources : List (List Image)) : SrcState × Option String :=
  match configure sources with
  | .ok _ => (.READY, none)
  | .error e => (.ERROR, some e)

theorem checkImagesSpp_preserved (images : List Image) :
    ∀ spp0 si spp1, checkImagesSpp spp0 si images = .ok spp1 → spp0 ≠ 0 →
      spp1 = spp0 := by
  induction images with
  | nil =>
    intro spp0 si spp1 h h0
    simpa [checkImagesSpp] using h.symm
  | cons im rest ih =>
    intro spp0 si spp1 h h0
    rw [checkImagesSpp, if_neg h0] at h
    by_cases hsp : im.samplesPerPixel = spp0
    · rw [if_pos hsp] at h
      exact ih spp0 si spp1 h h0
    · rw [if_neg hsp] at h
      exact Except.noConfusion h

theorem checkImagesSpp_covers (images : List Image) :
    ∀ spp0 si spp1, (∀ im ∈ images, 0 < im.samplesPerPixel) →
      checkImagesSpp spp0 si images = .ok spp1 →
      ∀ im ∈ images, im.samplesPerPixel = spp1 := by
  induction images with
  | nil =>
    intro spp0 si spp1 _ _ im hmem
    exact absurd hmem (List.not_mem_nil im)
  | cons im0 rest ih =>
    intro spp0 si spp1 hpos h im hmem
    have hpos0 : 0 < im0.samplesPerPixel := hpos im0 (List.mem_cons_self im0 rest)
    rw [checkImagesSpp] at h
    by_cases h0 : spp0 = 0
    · rw [if_pos h0] at h
      rcases List.mem_cons.mp hmem with hh | hh
      · subst hh
        exact (checkImagesSpp_preserved rest _ si spp1 h (by omega)).symm
      · exact ih _ si spp1 (fun x hx => hpos x (List.mem_cons_of_mem _ hx)) h im hh
    · rw [if_neg h0] at h
      by_cases hsp : im0.samplesPerPixel = spp0
      · rw [if_pos hsp] at h
        have hpres := checkImagesSpp_preserved rest spp0 si spp1 h h0
        rcases List.mem_cons.mp hmem with hh | hh
        · subst hh
          omega
        · exact ih spp0 si spp1 (fun x hx => hpos x (List.mem_cons_of_mem _ hx)) h im hh
      · rw [if_neg hsp] at h
        exact Except.noConfusion h

theorem configureSource_spp (acc : ConfigAcc) (si : ℕ) (images : List Image)
    (acc2 : ConfigAcc) (h : configureSource acc si images = .ok acc2) :
    checkImagesSpp acc.spp si images = .ok acc2.spp := by
  unfold configureSource at h
  cases hc : checkImagesSpp acc.spp si images with
  | error e => rw [hc] at h; exact Except.noConfusion h
  | ok spp =>
    rw [hc] at h
    cases h1 : assertAcc acc.extent (sourceExtentOf images)
        ("Extent mismatch for source " ++ toString si ++ ", got ["
          ++ qOptJoin (sourceExtentOf images) ++ "] but expected ["
          ++ qOptJoin acc.extent ++ "]") with
    | error e => rw [h1] at h; exact Except.noConfusion h
    | ok extent =>
      rw [h1] at h
      cases h2 : assertAcc acc.origin (sourceOriginOf images)
          ("Origin mismatch for source " ++ toString si ++ ", got ["
            ++ qOptJoin (sourceOriginOf images) ++ "] but expected ["
            ++ qOptJoin acc.origin ++ "]") with
      | error e => rw [h2] at h; exact Except.noConfusion h
      | ok origin =>
        rw [h2] at h
        cases h3 : assertAcc acc.tileSizes (some (sourceTileSizesOf images))
            ("Tile size mismatch for source " ++ toString si) with
        | error e => rw [h3] at h; exact Except.noConfusion h
        | ok tileSizes =>
          rw [h3] at h
          cases h4 : assertAcc acc.resolutions (some (sourceResolutionsOf images))
              ("Resolution mismatch for source " ++ toString si ++ ", got ["
                ++ qJoin (sourceResolutionsOf images) ++ "] but expected ["
                ++ qOptJoin acc.resolutions ++ "]") with
          | error e => rw [h4] at h; exact Except.noConfusion h
          | ok resolutions =>
            rw [h4] at h
            have : acc2 = ⟨spp, extent, origin, tileSizes, resolutions⟩ :=
              (Except.ok.injEq _ _ |>.mp h).symm
            rw [this]

theorem configureLoop_spp_preserved (sources : List (List Image)) :
    ∀ acc si accF, configureLoop acc si sources = .ok accF → acc.spp ≠ 0 →
      accF.spp = acc.spp := by
  induction sources with
  | nil =>
    intro acc si accF h h0
    rw [configureLoop] at h
    rw [(Except.ok.injEq _ _ |>.mp h).symm]
  | cons images rest ih =>
    intro acc si accF h h0
    rw [configureLoop] at h
    cases hc : configureSource acc si images with
    | error e => rw [hc] at h; exact Except.noConfusion h
    | ok acc2 =>
      rw [hc] at h
      have hspp := configureSource_spp acc si images acc2 hc
      have hpres := checkImagesSpp_preserved images acc.spp si acc2.spp hspp h0
      have := ih acc2 (si + 1) accF h (by omega)
      omega

theorem configureLoop_covers (sources : List (List Image)) :
    ∀ acc si accF,
      (∀ images ∈ sources, ∀ im ∈ images, 0 < im.samplesPerPixel) →
      (∀ images ∈ sources, images ≠ []) →
      configureLoop acc si sources = .ok accF →
      ∀ images ∈ sources, ∀ im ∈ images, im.samplesPerPixel = accF.spp := by
  induction sources with
  | nil =>
    intro acc si accF _ _ _ images hmem
    exact absurd hmem (List.not_mem_nil images)
  | cons images0 rest ih =>
    intro acc si accF hpos hne h images hmem im hmemi
    rw [configureLoop] at h
    cases hc : configureSource acc si images0 with
    | error e => rw [hc] at h; exact Except.noConfusion h
    | ok acc2 =>
      rw [hc] at h
      have hspp := configureSource_spp acc si images0 acc2 hc
      have hpos0 : ∀ x ∈ images0, 0 < x.samplesPerPixel :=
        hpos images0 (List.mem_cons_self _ _)
      have hcov0 := checkImagesSpp_covers images0 acc.spp si acc2.spp hpos0 hspp
      have hne0 : images0 ≠ [] := hne images0 (List.mem_cons_self _ _)
      have hacc2 : acc2.spp ≠ 0 := by
        rcases List.exists_mem_of_ne_nil images0 hne0 with ⟨x, hx⟩
        have := hcov0 x hx
        have := hpos0 x hx
        omega
      have hpres := configureLoop_spp_preserved rest acc2 (si + 1) accF h hacc2
      rcases List.mem_cons.mp hmem with hh | hh
      · subst hh
        rw [hcov0 im hmemi, hpres]
      · exact ih acc2 (si + 1) accF
          (fun x hx => hpos x (List.mem_cons_of_mem _ hx))
          (fun x hx => hne x (List.mem_cons_of_mem _ hx)) h images hh im hmemi

theorem checkBandPolicy_multi (n spp : ℕ) (hn : n ≠ 1)
    (h : checkBandPolicy n spp = .ok ()) : spp = 1 := by
  unfold checkBandPolicy at h
  rw [if_neg hn] at h
  by_cases hs : spp ≠ 1
  · rw [if_pos hs] at h
    exact Except.noConfusion h
  · omega

theorem checkImagesSpp_uniform (s si : ℕ) :
    ∀ images, (∀ im ∈ images, im.samplesPerPixel = s) →
      checkImagesSpp s si images = .ok s := by
  intro images
  induction images with
  | nil => intro _; rfl
  | cons im rest ih =>
    intro huni
    have h0 : im.samplesPerPixel = s := huni im (List.mem_cons_self _ _)
    rw [checkImagesSpp]
    by_cases hs : s = 0
    · rw [if_pos hs, h0, hs]
      have := ih (fun x hx => huni x (List.mem_cons_of_mem _ hx))
      rw [hs] at this
      exact this
    · rw [if_neg hs, if_pos h0]
      exact ih (fun x hx => huni x (List.mem_cons_of_mem _ hx))

theorem configureSource_single (images : List Image) (s : ℕ) (hne : images ≠ [])
    (huni : ∀ im ∈ images, im.samplesPerPixel = s) :
    configureSource initialAcc 0 images =
      .ok ⟨s, sourceExtentOf images, sourceOriginOf images,
        some (sourceTileSizesOf images), some (sourceResolutionsOf images)⟩ := by
  have hspp : checkImagesSpp initialAcc.spp 0 images = .ok s := by
    cases images with
    | nil => exact absurd rfl hne
    | cons im rest =>
      show checkImagesSpp 0 0 (im :: rest) = .ok s
      rw [checkImagesSpp, if_pos rfl, huni im (List.mem_cons_self _ _)]
      exact checkImagesSpp_uniform s 0 rest
        (fun x hx => huni x (List.mem_cons_of_mem _ hx))
  unfold configureSource
  rw [hspp]
  rfl

/-- C8: the band-count policy.  A single source (with a uniform
samples-per-pixel value across its images) is accepted by `configure_`
exactly when that value is 1, 3 or 4; with two or more sources (of
nonempty image lists with positive samples-per-pixel), any source
containing an image whose samples-per-pixel differs from 1 makes
`configure_` throw. -/
theorem c8_band_policy :
    (∀ (images : List Image) (s : ℕ), images ≠ [] →
      (∀ im ∈ images, im.samplesPerPixel = s) →
      ((∃ acc, configure [images] = .ok acc) ↔ (s = 1 ∨ s = 3 ∨ s = 4))) ∧
    (∀ sources : List (List Image), 2 ≤ sources.length →
      (∀ images ∈ sources, images ≠ []) →
      (∀ images ∈ sources, ∀ im ∈ images, 0 < im.samplesPerPixel) →
      ∀ images ∈ sources, ∀ im ∈ images, im.samplesPerPixel ≠ 1 →
      ∃ e, configure sources = .error e) := by
  constructor
  · intro images s hne huni
    have hcs := configureSource_single images s hne huni
    have hloop : configureLoop initialAcc 0 [images] =
        .ok ⟨s, sourceExtentOf images, sourceOriginOf images,
          some (sourceTileSizesOf images), some (sourceResolutionsOf images)⟩ := by
      rw [configureLoop, hcs]
      rfl
    have hconf : configure [images] =
        (match checkBandPolicy 1 s with
          | .error e => Except.error e
          | .ok _ => Except.ok (⟨s, sourceExtentOf images, sourceOriginOf images,
              some (sourceTileSizesOf images),
              some (sourceResolutionsOf images)⟩ : ConfigAcc)) := by
      unfold configure
      rw [hloop]
      rfl
    rw [hconf]
    constructor
    · rintro ⟨acc, hacc⟩
      by_cases hs : s = 1 ∨ s = 3 ∨ s = 4
      · exact hs
      · rw [show checkBandPolicy 1 s = .error
            ("Expected a grayscale, RGB, or RGBA source, found "
              ++ toString s ++ " samples per pixel") by
          unfold checkBandPolicy
          rw [if_pos rfl, if_pos hs]] at hacc
        exact Except.noConfusion hacc
    · intro hs
      rw [show checkBandPolicy 1 s = .ok () by
        unfold checkBandPolicy
        rw [if_pos rfl, if_neg (not_not_intro hs)]]
      exact ⟨_, rfl⟩
  · intro sources hlen hne hpos images hmem im hmemi hspp
    cases h : configure sources with
    | error e => exact ⟨e, rfl⟩
    | ok acc =>
      exfalso
      unfold configure at h
      cases hl : configureLoop initialAcc 0 sources with
      | error e => rw [hl] at h; exact Except.noConfusion h
      | ok acc2 =>
        rw [hl] at h
        have h2 : (match checkBandPolicy sources.length acc2.spp with
            | Except.error e => (Except.error e : Except String ConfigAcc)
            | Except.ok _ => Except.ok acc2) = Except.ok acc := h
        cases hp : checkBandPolicy sources.length acc2.spp with
        | error e => rw [hp] at h2; exact Except.noConfusion h2
        | ok u =>
          have hone : acc2.spp = 1 := by
            cases u
            exact checkBandPolicy_multi sources.length acc2.spp (by omega) hp
          have := configureLoop_covers sources initialAcc 0 acc2 hpos hne hl
            images hmem im hmemi
          omega

/-- A 2-band single image: rejected by the single-source policy. -/
def img2band : Image := ⟨2, [0, 0, 10, 10], [0, 10], 1, 256, 256⟩

/-- A 1-band image used as a valid co-source. -/
def img1band : Image := ⟨1, [0, 0, 10, 10], [0, 10], 1, 256, 256⟩

/-- A 3-band image: rejected when combined with another source. -/
def img3band : Image := ⟨3, [0, 0, 10, 10], [0, 10], 1, 256, 256⟩

/-- C8 witness: a single 2-band source is not accepted (the iff reduces the
acceptance to the false disjunction), and a multi-source configuration
containing a 3-band source throws. -/
theorem c8_band_policy_witness :
    ((∃ acc, configure [[img2band]] = .ok acc) ↔ ((2:ℕ) = 1 ∨ (2:ℕ) = 3 ∨ (2:ℕ) = 4)) ∧
      (∃ e, configure [[img1band], [img3band]] = .error e) := by
  constructor
  · have := c8_band_policy.1 [img2band] 2 (by simp)
      (by intro im hm; rw [List.mem_singleton] at hm; rw [hm]; rfl)
    exact this
  · exact c8_band_policy.2 [[img1band], [img3band]] (by simp)
      (by intro images hm; rcases List.mem_cons.mp hm with h | h
          · rw [h]; simp
          · rw [List.mem_singleton] at h; rw [h]; simp)
      (by intro images hm im hmi
          rcases List.mem_cons.mp hm with h | h
          · rw [h] at hmi; rw [List.mem_singleton] at hmi; rw [hmi]; decide
          · rw [List.mem_singleton] at h; rw [h] at hmi
            rw [List.mem_singleton] at hmi; rw [hmi]; decide)
      [img3band]
      (by simp)
      img3band (by simp) (by decide)

/-- A 1-band image with bounding box 0,0,10,10. -/
def imgA : Image := ⟨1, [0, 0, 10, 10], [0, 10], 1, 256, 256⟩

/-- A 1-band image identical to `imgA` except for its bounding box. -/
def imgB : Image := ⟨1, [0, 0, 20, 20], [0, 10], 1, 256, 256⟩

/-- C9 counterexample: at a concrete cross-source extent mismatch, the
constructor pipeline ends in the terminal ERROR state with the error
captured (retrievable via `getError`) — the consistency error is swallowed
by the promise `catch`, not propagated to the constructor's caller. -/
theorem c9_counterexample :
    (resolveConfigure [[imgA], [imgB]]).1 = SrcState.ERROR ∧
      (resolveConfigure [[imgA], [imgB]]).2.isSome = true := by
  constructor
  · rfl
  · rfl

/-- C9 amended: an error detected by `configure_` does propagate out of
`configure_` itself, but only into the constructor's promise continuation,
whose `catch` captures it: the component transitions to the terminal ERROR
state with the error object stored. -/
theorem c9_amended (sources : List (List Image)) (e : String)
    (h : configure sources = .error e) :
    resolveConfigure sources = (SrcState.ERROR, some e) := by
  unfold resolveConfigure
  rw [h]

/-- C9 witness: the amended statement applied at the concrete extent
mismatch. -/
theorem c9_amended_witness :
    resolveConfigure [[imgA], [imgB]] =
      (SrcState.ERROR,
        some "Extent mismatch for source 1, got [0,0,20,20] but expected [0,0,10,10]") :=
  c9_amended [[imgA], [imgB]]
    "Extent mismatch for source 1, got [0,0,20,20] but expected [0,0,10,10]" rfl

end GeoTIFF

namespace OGC

/-- One tile matrix of a tile-matrix-set definition (the `TileMatrix`
typedef of OGCMapTile.js). -/
structure TileMatrix where
  identifier : String
  scaleDenominator : ℚ
  topLeftCorner : ℚ × ℚ
  matrixWidth : ℕ
  matrixHeight : ℕ
  tileWidth : ℕ
  tileHeight : ℕ
deriving DecidableEq

instance : Inhabited TileMatrix := ⟨⟨"", 0, (0, 0), 0, 0, 0, 0⟩⟩

/-- A tile-matrix-set definition (the `TileMatrixSet` typedef). -/
structure TileMatrixSet where
  supportedCRS : String
  tileMatrix : List TileMatrix

/-- The part of an `ol/proj` projection that
`handleTileMatrixSetResponse` reads. -/
structure Projection where
  axisOrientation : String
  metersPerUnit : ℚ

/-- `backwards = projection.getAxisOrientation().substr(0, 2) !== 'en'`
(OGCMapTile.js line 277). -/
def backwards (proj : Projection) : Bool := !(proj.axisOrientation.take 2 == "en")

/-- `resolutions[i] = (matrix.scaleDenominator * 0.00028) / metersPerUnit`
(line 295). -/
def resolutionOf (proj : Projection) (m : TileMatrix) : ℚ :=
  m.scaleDenominator * (28 / 100000) / proj.metersPerUnit

/-- `origins[i]`: the `topLeftCorner`, reversed when the axis order is not
(east, north) (lines 289-294). -/
def originOf (proj : Projection) (m : TileMatrix) : ℚ × ℚ :=
  if backwards proj then (m.topLeftCorner.2, m.topLeftCorner.1) else m.topLeftCorner

/-- The arrays handed to the `TileGrid` constructor (lines 281-305). -/
structure GridResult where
  origins : List (ℚ × ℚ)
  resolutions : List ℚ
  sizes : List (ℕ × ℕ)
  tileSizes : List (ℕ × ℕ)

/-- The effective projection: the one set on the source, else the registry
lookup by the definition's `supportedCRS` (lines 267-276). -/
def effProj (proj? : Option Projection) (registry : String → Option Projection)
    (crs : String) : Option Projection :=
  match proj? with
  | some p => some p
  | none => registry crs

/-- Embeds `handleTileMatrixSetResponse` (lines 266-334): derive the
projection (failure is fatal), then build one grid level per matrix entry
in declared order. -/
def handleTileMatrixSetResponse (proj? : Option Projection)
    (registry : String → Option Projection) (tms : TileMatrixSet) :
    Except String GridResult :=
  match effProj proj? registry tms.supportedCRS with
  | none => .error ("Unsupported CRS: " ++ tms.supportedCRS)
  | some proj =>
    .ok { origins := tms.tileMatrix.map (originOf proj)
          resolutions := tms.tileMatrix.map (resolutionOf proj)
          sizes := tms.tileMatrix.map fun m => (m.matrixWidth, m.matrixHeight)
          tileSizes := tms.tileMatrix.map fun m => (m.tileWidth, m.tileHeight) }

/-- A link of the tileset response (the `Link` typedef). -/
structure Link where
  rel : String
  href : String
  type : String
deriving DecidableEq

/-- A matrix-set link of the tileset response (the `TileMatrixSetLink`
typedef). -/
structure TileMatrixSetLink where
  tileMatrixSet : String
  tileMatrixSetURI : String
deriving DecidableEq

/-- The tileset response (the `TilesInfo` typedef). -/
structure TilesInfo where
  links : List Link
  tileMatrixSetLinks : List TileMatrixSetLink

/-- The observable effect of `handleTilesInfoResponse`: either
`handleError` runs (the resolver transitions to ERROR with this message,
line 340-343) or the second metadata fetch is issued for the matched
matrix-set URI (lines 221-226). -/
inductive TilesOutcome where
  | error (msg : String)
  | fetch (uri : String) (template : String)
deriving DecidableEq

/-- The first link with `rel === 'item'` (lines 190-196). -/
def findItemTemplate (links : List Link) : Option String :=
  (links.find? fun l => l.rel == "item").map fun l => l.href

/-- The first matrix-set link matching the requested id (lines 203-211). -/
def findMatrixSetURI (links : List TileMatrixSetLink) (id : String) :
    Option String :=
  (links.find? fun c => c.tileMatrixSet == id).map fun c => c.tileMatrixSetURI

/-- Embeds `handleTilesInfoResponse` (lines 188-227).  Both guards are the
JS falsy tests: an item link whose `href` is the empty string fails the
template guard `if (!tileUrlTemplate)` (line 197) just like a missing item
link, and a matched matrix-set link whose URI is the empty string fails
`if (!tileMatrixSetURI)` (line 214) just like a missing link. -/
def handleTilesInfoResponse (info : TilesInfo) (matrixSetId : String) :
    TilesOutcome :=
  match findItemTemplate info.links with
  | none => .error "could not find item link"
  | some tpl =>
    if tpl = "" then .error "could not find item link"
    else
      match findMatrixSetURI info.tileMatrixSetLinks matrixSetId with
      | none => .error ("could not find tileMatrixSet: " ++ matrixSetId)
      | some uri =>
        if uri = "" then .error ("could not find tileMatrixSet: " ++ matrixSetId)
        else .fetch uri tpl

/-- `handleError` (lines 340-343) logs and sets the source state to ERROR;
the fetch outcome leaves the resolver still LOADING until the second
response arrives.  `SrcState` models the shared `ol/source/State.js`. -/
def resolverStateOf : TilesOutcome → GeoTIFF.SrcState
  | .error _ => .ERROR
  | .fetch _ _ => .LOADING

/-- Decidable substring test on character lists. -/
def listContains (needle : List Char) : List Char → Bool
  | [] => needle.isEmpty
  | c :: rest => needle.isPrefixOf (c :: rest) || listContains needle rest

/-- Whether `msg` names (contains) the string `id`. -/
def namesIdB (msg id : String) : Bool := listContains id.toList msg.toList

theorem getD_map_resolution (p : Projection) (l : List TileMatrix) (i : ℕ)
    (h : i < l.length) :
    (l.map (resolutionOf p)).getD i 0 = resolutionOf p (l.getD i default) := by
  simp [List.getD_eq_getElem?_getD, List.getElem?_map, List.getElem?_eq_getElem, h]

theorem getD_map_origin (p : Projection) (l : List TileMatrix) (i : ℕ)
    (h : i < l.length) :
    (l.map (originOf p)).getD i (0, 0) = originOf p (l.getD i default) := by
  simp [List.getD_eq_getElem?_getD, List.getElem?_map, List.getElem?_eq_getElem, h]

/-- C4: for a matrix-set definition whose scale denominators strictly
decrease down the list and an effective projection with positive
meters-per-unit, the resolver succeeds with one resolution per matrix
entry in declared order, each equal to
`scaleDenominator * 0.00028 / metersPerUnit`, and the resolutions are
strictly decreasing. -/
theorem c4_resolutions_decreasing (proj? : Option Projection)
    (registry : String → Option Projection) (tms : TileMatrixSet) (p : Projection)
    (hp : effProj proj? registry tms.supportedCRS = some p)
    (hmpu : 0 < p.metersPerUnit)
    (hmono : List.Chain' (fun a b => b.scaleDenominator < a.scaleDenominator)
      tms.tileMatrix) :
    ∃ grid, handleTileMatrixSetResponse proj? registry tms = .ok grid ∧
      grid.resolutions.length = tms.tileMatrix.length ∧
      (∀ i, i < tms.tileMatrix.length →
        grid.resolutions.getD i 0 =
          (tms.tileMatrix.getD i default).scaleDenominator * (28 / 100000)
            / p.metersPerUnit) ∧
      List.Chain' (fun a b => b < a) grid.resolutions := by
  refine ⟨{ origins := tms.tileMatrix.map (originOf p)
            resolutions := tms.tileMatrix.map (resolutionOf p)
            sizes := tms.tileMatrix.map fun m => (m.matrixWidth, m.matrixHeight)
            tileSizes := tms.tileMatrix.map fun m => (m.tileWidth, m.tileHeight) },
    ?_, ?_, ?_, ?_⟩
  · unfold handleTileMatrixSetResponse
    rw [hp]
  · simp
  · intro i hi
    rw [getD_map_resolution p tms.tileMatrix i hi]
    rfl
  · rw [List.chain'_map]
    refine hmono.imp ?_
    intro a b hab
    unfold resolutionOf
    gcongr

/-- Projection with (east, north) axis order and meters-per-unit 1. -/
def projEN : Projection := ⟨"enu", 1⟩

/-- Projection with (north, east) axis order and meters-per-unit 1. -/
def projNE : Projection := ⟨"neu", 1⟩

/-- A two-level matrix set with strictly decreasing scale denominators. -/
def tmsW : TileMatrixSet :=
  ⟨"EPSG:3857",
    [⟨"0", 10, (1, 2), 1, 1, 256, 256⟩, ⟨"1", 5, (1, 2), 2, 2, 256, 256⟩]⟩

/-- C4 witness: the theorem applied to the concrete two-level pyramid. -/
theorem c4_resolutions_decreasing_witness :
    ∃ grid, handleTileMatrixSetResponse (some projEN) (fun _ => none) tmsW = .ok grid ∧
      grid.resolutions.length = tmsW.tileMatrix.length ∧
      (∀ i, i < tmsW.tileMatrix.length →
        grid.resolutions.getD i 0 =
          (tmsW.tileMatrix.getD i default).scaleDenominator * (28 / 100000)
            / projEN.metersPerUnit) ∧
      List.Chain' (fun a b => b < a) grid.resolutions :=
  c4_resolutions_decreasing (some projEN) (fun _ => none) tmsW projEN rfl
    (by norm_num [projEN])
    (by simp [tmsW, List.chain'_cons]; norm_num)

/-- C5: for every matrix entry, the resolved grid origin is the reversed
`topLeftCorner` pair exactly when the coordinate system's first two axes
are not (east, north), and the unchanged pair when they are. -/
theorem c5_axis_order (proj? : Option Projection)
    (registry : String → Option Projection) (tms : TileMatrixSet) (p : Projection)
    (hp : effProj proj? registry tms.supportedCRS = some p) :
    ∃ grid, handleTileMatrixSetResponse proj? registry tms = .ok grid ∧
      ∀ i, i < tms.tileMatrix.length →
        grid.origins.getD i (0, 0) =
          (if p.axisOrientation.take 2 ≠ "en"
            then ((tms.tileMatrix.getD i default).topLeftCorner.2,
              (tms.tileMatrix.getD i default).topLeftCorner.1)
            else (tms.tileMatrix.getD i default).topLeftCorner) := by
  refine ⟨{ origins := tms.tileMatrix.map (originOf p)
            resolutions := tms.tileMatrix.map (resolutionOf p)
            sizes := tms.tileMatrix.map fun m => (m.matrixWidth, m.matrixHeight)
            tileSizes := tms.tileMatrix.map fun m => (m.tileWidth, m.tileHeight) },
    ?_, ?_⟩
  · unfold handleTileMatrixSetResponse
    rw [hp]
  · intro i hi
    rw [getD_map_origin p tms.tileMatrix i hi]
    unfold originOf backwards
    by_cases hen : p.axisOrientation.take 2 = "en"
    · rw [if_neg (not_not_intro hen)]
      simp [hen]
    · rw [if_pos hen]
      simp [hen]

/-- C5 witness: the theorem applied with a (north, east) projection (the
origin pair is reversed) and with an (east, north) projection (the pair is
unchanged). -/
theorem c5_axis_order_witness :
    (∃ grid, handleTileMatrixSetResponse (some projNE) (fun _ => none) tmsW = .ok grid ∧
      ∀ i, i < tmsW.tileMatrix.length →
        grid.origins.getD i (0, 0) =
          (if projNE.axisOrientation.take 2 ≠ "en"
            then ((tmsW.tileMatrix.getD i default).topLeftCorner.2,
              (tmsW.tileMatrix.getD i default).topLeftCorner.1)
            else (tmsW.tileMatrix.getD i default).topLeftCorner)) ∧
    (∃ grid, handleTileMatrixSetResponse (some projEN) (fun _ => none) tmsW = .ok grid ∧
      ∀ i, i < tmsW.tileMatrix.length →
        grid.origins.getD i (0, 0) =
          (if projEN.axisOrientation.take 2 ≠ "en"
            then ((tmsW.tileMatrix.getD i default).topLeftCorner.2,
              (tmsW.tileMatrix.getD i default).topLeftCorner.1)
            else (tmsW.tileMatrix.getD i default).topLeftCorner)) :=
  ⟨c5_axis_order (some projNE) (fun _ => none) tmsW projNE rfl,
    c5_axis_order (some projEN) (fun _ => none) tmsW projEN rfl⟩

/-- A tileset response with no links at all. -/
def infoEmpty : TilesInfo := ⟨[], []⟩

/-- A tileset response whose only item link has an empty href (falsy in
JS), and no matrix-set links. -/
def infoEmptyHref : TilesInfo := ⟨[⟨"item", "", "application/json"⟩], []⟩

/-- C6 counterexample: for a tileset response with no matching matrix-set
link but also no usable item link — either no item link at all, or an
item link whose href is empty and hence falsy — the resolver does
transition to ERROR without issuing the second fetch, but the error
message is the earlier item-link message, which does not name the
requested id "Foo". -/
theorem c6_counterexample :
    handleTilesInfoResponse infoEmpty "Foo" =
        TilesOutcome.error "could not find item link" ∧
      handleTilesInfoResponse infoEmptyHref "Foo" =
        TilesOutcome.error "could not find item link" ∧
      namesIdB "could not find item link" "Foo" = false := by
  refine ⟨rfl, rfl, rfl⟩

/-- C6 amended: whenever no matrix-set link matches the requested id, the
resolver transitions to ERROR and never issues the second fetch; if the
response contains an `item` link with a nonempty href, the error message
is `could not find tileMatrixSet: <id>` (naming the requested id);
otherwise — no item link, or an item link with an empty (falsy) href —
the message is the earlier item-link message, which does not name the id. -/
theorem c6_missing_matrix_set (info : TilesInfo) (matrixSetId : String)
    (h : ∀ l ∈ info.tileMatrixSetLinks, l.tileMatrixSet ≠ matrixSetId) :
    (∀ uri tpl, handleTilesInfoResponse info matrixSetId ≠ .fetch uri tpl) ∧
      resolverStateOf (handleTilesInfoResponse info matrixSetId) =
        GeoTIFF.SrcState.ERROR ∧
      (∀ tpl, findItemTemplate info.links = some tpl → tpl ≠ "" →
        handleTilesInfoResponse info matrixSetId =
          .error ("could not find tileMatrixSet: " ++ matrixSetId)) := by
  have hfind : findMatrixSetURI info.tileMatrixSetLinks matrixSetId = none := by
    unfold findMatrixSetURI
    rw [List.find?_eq_none.mpr]
    · rfl
    · intro x hx
      simpa using h x hx
  unfold handleTilesInfoResponse
  cases hitem : findItemTemplate info.links with
  | none =>
    refine ⟨fun uri tpl hc => TilesOutcome.noConfusion hc, rfl, ?_⟩
    · intro tpl htpl
      exact Option.noConfusion htpl
  | some tpl0 =>
    dsimp only
    by_cases htpl0 : tpl0 = ""
    · rw [if_pos htpl0]
      refine ⟨fun uri tpl hc => TilesOutcome.noConfusion hc, rfl, ?_⟩
      intro tpl htpl hne
      exact absurd (htpl0 ▸ Option.some.inj htpl).symm hne
    · rw [if_neg htpl0, hfind]
      exact ⟨fun uri tpl hc => TilesOutcome.noConfusion hc, rfl, fun tpl _ _ => rfl⟩

/-- A tileset response with an item link and one matrix-set link whose id
is not the requested one. -/
def infoW : TilesInfo :=
  ⟨[⟨"self", "meta", "application/json"⟩, ⟨"item", "tmpl", "application/json"⟩],
    [⟨"WebMercatorQuad", "uri1"⟩]⟩

/-- C6 witness: the amended statement applied to a response that has an
item link with the nonempty href "tmpl" but no link matching the id
"Foo". -/
theorem c6_missing_matrix_set_witness :
    handleTilesInfoResponse infoW "Foo" =
        TilesOutcome.error "could not find tileMatrixSet: Foo" ∧
      resolverStateOf (handleTilesInfoResponse infoW "Foo") =
        GeoTIFF.SrcState.ERROR ∧
      namesIdB "could not find tileMatrixSet: Foo" "Foo" = true := by
  have h := c6_missing_matrix_set infoW "Foo" (by decide)
  exact ⟨h.2.2 "tmpl" rfl (by decide), h.2.1, rfl⟩


/-- The literal left-brace character of the template syntax. -/
def lbrace : Char := Char.ofNat 123

/-- The literal right-brace character of the template syntax. -/
def rbrace : Char := Char.ofNat 125

/-- The regex word-character class of the placeholder pattern. -/
def isWordChar (c : Char) : Bool := c.isAlphanum || c == '_'

/-- Worker for the template substitution, with a step budget for structural
recursion.  Each step consumes at least one character of the remaining
template, so a budget of the template length never runs out. -/
def substTemplateAux (ctx : String → Option String) : ℕ → List Char → List Char
  | 0, l => l
  | _ + 1, [] => []
  | fuel + 1, c :: rest =>
    if (c == lbrace) && (!(rest.takeWhile isWordChar).isEmpty)
        && ((rest.dropWhile isWordChar).head? == some rbrace) then
      ((ctx (String.mk (rest.takeWhile isWordChar))).getD "undefined").toList
        ++ substTemplateAux ctx fuel (rest.dropWhile isWordChar).tail
    else
      c :: substTemplateAux ctx fuel rest

/-- Embeds the template substitution
`tileUrlTemplate.replace(/\x7b(\w+?)\x7d/g, (m, p) => localContext[p])`
(OGCMapTile.js lines 326-328): scan for a left brace followed by a
nonempty word-character run and a right brace, replace the placeholder by
the context value (JS renders a missing key, i.e. `undefined`, as the
string "undefined"), and continue after the right brace; positions that
start no match are copied through. -/
def substTemplate (ctx : String → Option String) (l : List Char) : List Char :=
  substTemplateAux ctx l.length l

/-- `localContext` as built by the tile-URL closure (lines 318-323):
computed substitution values for the current tile coordinate. -/
def localContextOf (tmsId : String) (matrices : List TileMatrix) (z x y : ℕ) :
    List (String × String) :=
  [("tileMatrixSetId", tmsId),
    ("tileMatrix", (matrices.getD z default).identifier),
    ("tileCol", toString x),
    ("tileRow", toString y)]

/-- Property lookup on a flat key/value object. -/
def lookupCtx (ctx : List (String × String)) (k : String) : Option String :=
  (ctx.find? fun p => p.1 == k).map fun p => p.2

/-- `assign(localContext, context)` (line 324): the caller-supplied static
context entries are merged over the computed values, so a caller entry
wins any key collision. -/
def mergedContext (localCtx ctx : List (String × String)) (k : String) :
    Option String :=
  match lookupCtx ctx k with
  | some v => some v
  | none => lookupCtx localCtx k

/-- The tile-URL function produced by `setTileUrlFunction` (lines 313-331)
applied to a tile coordinate `(z, x, y)`. -/
def tileUrlFunction (template tmsId : String) (matrices : List TileMatrix)
    (ctx : List (String × String)) (z x y : ℕ) : String :=
  String.mk (substTemplate (mergedContext (localContextOf tmsId matrices z x y) ctx)
    template.toList)

theorem string_mk_toList (s : String) : String.mk s.toList = s := rfl

theorem takeWhile_word_append (l : List Char) (hw : ∀ c ∈ l, isWordChar c = true) :
    (l ++ [rbrace]).takeWhile isWordChar = l ∧
      (l ++ [rbrace]).dropWhile isWordChar = [rbrace] := by
  induction l with
  | nil =>
    constructor
    · rfl
    · rfl
  | cons c cs ih =>
    have hc : isWordChar c = true := hw c (List.mem_cons_self _ _)
    have ihs := ih fun x hx => hw x (List.mem_cons_of_mem _ hx)
    constructor
    · rw [List.cons_append, List.takeWhile_cons, hc]
      simp [ihs.1]
    · rw [List.cons_append, List.dropWhile_cons, hc]
      simpa using ihs.2

/-- Substituting a template that is exactly one placeholder around a
nonempty word-character key yields the context value for that key. -/
theorem substTemplate_single (ctx : String → Option String) (k : String)
    (hne : k.toList ≠ []) (hw : ∀ c ∈ k.toList, isWordChar c = true) :
    substTemplate ctx (lbrace :: k.toList ++ [rbrace]) =
      ((ctx k).getD "undefined").toList := by
  obtain ⟨htake, hdrop⟩ := takeWhile_word_append k.toList hw
  have hcond : ((lbrace == lbrace) && (!(k.toList).isEmpty)
      && (([rbrace] : List Char).head? == some rbrace)) = true := by
    simp [List.isEmpty_iff]
    exact hne
  unfold substTemplate
  show substTemplateAux ctx ((k.toList ++ [rbrace]).length + 1)
      (lbrace :: (k.toList ++ [rbrace])) = ((ctx k).getD "undefined").toList
  rw [substTemplateAux, htake, hdrop, if_pos hcond, string_mk_toList]
  rw [show ([rbrace] : List Char).tail = [] from rfl]
  rw [show substTemplateAux ctx (k.toList ++ [rbrace]).length [] = [] from (by
    rw [show (k.toList ++ [rbrace]).length = k.toList.length + 1 from by simp]
    rw [substTemplateAux])]
  rw [List.append_nil]

/-- C10: when the caller-supplied static context contains one of the
computed keys (`tileMatrixSetId`, `tileMatrix`, `tileCol`, `tileRow`), the
merged substitution context yields the caller's value for that key, and a
template holding that placeholder resolves to the caller's static value,
not the value derived from the tile coordinate. -/
theorem c10_caller_context_wins (tmsId : String) (matrices : List TileMatrix)
    (ctx : List (String × String)) (z x y : ℕ) (k v : String)
    (hk : k = "tileMatrixSetId" ∨ k = "tileMatrix" ∨ k = "tileCol" ∨ k = "tileRow")
    (hv : lookupCtx ctx k = some v) :
    mergedContext (localContextOf tmsId matrices z x y) ctx k = some v ∧
      tileUrlFunction (String.mk (lbrace :: k.toList ++ [rbrace])) tmsId matrices
        ctx z x y = v := by
  have hmerge : mergedContext (localContextOf tmsId matrices z x y) ctx k = some v := by
    unfold mergedContext
    rw [hv]
  refine ⟨hmerge, ?_⟩
  have hne : k.toList ≠ [] := by
    rcases hk with h | h | h | h <;> subst h <;> decide
  have hw : ∀ c ∈ k.toList, isWordChar c = true := by
    rcases hk with h | h | h | h <;> subst h <;> decide
  unfold tileUrlFunction
  rw [show (String.mk (lbrace :: k.toList ++ [rbrace])).toList =
    lbrace :: k.toList ++ [rbrace] from rfl]
  rw [substTemplate_single _ k hne hw, hmerge]
  exact string_mk_toList v

/-- The single matrix used in the URL witnesses, with identifier "4". -/
def matrixId4 : TileMatrix := ⟨"4", 10, (0, 0), 16, 16, 256, 256⟩

/-- C10 witness: with a caller context binding `tileMatrix` to "STATIC",
the template made of that placeholder resolves to "STATIC", not to the
matrix identifier "4" computed from the tile coordinate. -/
theorem c10_caller_context_wins_witness :
    mergedContext (localContextOf "WebMercatorQuad" [matrixId4] 0 3 2)
        [("tileMatrix", "STATIC")] "tileMatrix" = some "STATIC" ∧
      tileUrlFunction (String.mk (lbrace :: "tileMatrix".toList ++ [rbrace]))
        "WebMercatorQuad" [matrixId4] [("tileMatrix", "STATIC")] 0 3 2 = "STATIC" :=
  c10_caller_context_wins "WebMercatorQuad" [matrixId4] [("tileMatrix", "STATIC")]
    0 3 2 "tileMatrix" "STATIC" (Or.inr (Or.inl rfl)) rfl

/-- The round-trip example of the spec: the four-placeholder template with
matrix-set "WebMercatorQuad", matrix identifier "4", column 3, row 2
resolves to "WebMercatorQuad/4/3/2" (no caller context). -/
theorem tileUrl_roundtrip_example :
    tileUrlFunction "\x7btileMatrixSetId\x7d/\x7btileMatrix\x7d/\x7btileCol\x7d/\x7btileRow\x7d"
      "WebMercatorQuad" [matrixId4] [] 0 3 2 = "WebMercatorQuad/4/3/2" := by
  rfl

end OGC

namespace TileTex

/-- Tile load states (`ol/TileState.js`). -/
inductive TileState where
  | IDLE
  | LOADING
  | LOADED
  | ERROR
  | EMPTY
deriving DecidableEq

/-- The observable state of one `TileTexture` instance
(ol/webgl/TileTexture.js): the `loaded` flag, whether the tile-change
listener is registered, whether the instance was disposed, and counters
for the 1x1 transparent placeholder uploads, the full tile uploads
(`uploadTile_`), and the change events the instance dispatched. -/
structure TT where
  loaded : Bool
  listening : Bool
  disposed : Bool
  blankUploads : ℕ
  fullUploads : ℕ
  changeEvents : ℕ
deriving DecidableEq

/-- The constructor (TileTexture.js lines 120-154): if the tile is already
LOADED, one full upload; otherwise one blank 1x1 upload
(`uploadBlankTexture`, a fixed fully-transparent pixel) and the change
listener is registered on the tile. -/
def construct (tileState : TileState) : TT :=
  if tileState = .LOADED then
    { loaded := true, listening := false, disposed := false,
      blankUploads := 0, fullUploads := 1, changeEvents := 0 }
  else
    { loaded := false, listening := true, disposed := false,
      blankUploads := 1, fullUploads := 0, changeEvents := 0 }

/-- External events: the backing tile fires a change notification while in
state `s`, or the instance is disposed. -/
inductive Event where
  | tileChange (s : TileState)
  | dispose
deriving DecidableEq

/-- One event step.  `handleTileChange_` (lines 174-180) runs only while
the listener is registered; when the tile state is LOADED it sets the
loaded flag, performs a full upload, and dispatches a change event — it
does not remove the listener.  `disposeInternal` (lines 182-187) releases
the GPU handles and removes the listener. -/
def step (t : TT) : Event → TT
  | .tileChange s =>
    if t.listening then
      if s = .LOADED then
        { t with
          loaded := true
          fullUploads := t.fullUploads + 1
          changeEvents := t.changeEvents + 1 }
      else t
    else t
  | .dispose => { t with listening := false, disposed := true }

/-- Run a sequence of events from a state. -/
def run (t : TT) (evs : List Event) : TT := evs.foldl step t

/-- C3 counterexample: constructing over an unloaded tile and then
delivering two change notifications with the tile LOADED performs two full
uploads and two change events — the listener is not one-shot, so a further
notification does cause an additional upload. -/
theorem c3_counterexample :
    (run (construct .LOADING) [.tileChange .LOADED, .tileChange .LOADED]).fullUploads = 2 ∧
      (run (construct .LOADING) [.tileChange .LOADED, .tileChange .LOADED]).changeEvents = 2 := by
  constructor
  · rfl
  · rfl

theorem run_not_listening (t : TT) (hl : t.listening = false) (evs : List Event) :
    (run t evs).fullUploads = t.fullUploads ∧ (run t evs).listening = false := by
  induction evs generalizing t with
  | nil => exact ⟨rfl, hl⟩
  | cons e rest ih =>
    show (run (step t e) rest).fullUploads = t.fullUploads ∧
      (run (step t e) rest).listening = false
    cases e with
    | tileChange s =>
      rw [show step t (.tileChange s) = t from by simp [step, hl]]
      exact ih t hl
    | dispose =>
      exact ih { t with listening := false, disposed := true } rfl

theorem run_loaded_replicate (n : ℕ) :
    ∀ t : TT, t.listening = true →
      (run t (List.replicate n (Event.tileChange .LOADED))).fullUploads =
          t.fullUploads + n ∧
        (run t (List.replicate n (Event.tileChange .LOADED))).changeEvents =
          t.changeEvents + n := by
  induction n with
  | zero => intro t _; exact ⟨rfl, rfl⟩
  | succ n ih =>
    intro t hl
    rw [List.replicate_succ]
    show (run (step t (.tileChange .LOADED)) (List.replicate n (Event.tileChange .LOADED))).fullUploads
        = t.fullUploads + (n + 1) ∧
      (run (step t (.tileChange .LOADED)) (List.replicate n (Event.tileChange .LOADED))).changeEvents
        = t.changeEvents + (n + 1)
    have hstep : step t (.tileChange .LOADED) =
        { t with
          loaded := true
          fullUploads := t.fullUploads + 1
          changeEvents := t.changeEvents + 1 } := by
      simp [step, hl]
    rw [hstep]
    have h2 := ih
      { t with
        loaded := true
        fullUploads := t.fullUploads + 1
        changeEvents := t.changeEvents + 1 } hl
    dsimp only at h2 ⊢
    omega

/-- C3 amended: constructing a TileTexture over a not-yet-loaded tile
performs exactly one placeholder upload, zero full uploads and zero change
events, and registers the tile listener; the first change notification
with state LOADED performs exactly one full upload and emits exactly one
change notification; disposing before the tile completes yields zero full
uploads no matter what is delivered afterwards.  However, the listener is
not one-shot: it stays registered until disposal, so `n` loaded-state
change notifications perform `n` full uploads and `n` change events. -/
theorem c3_texture_lifecycle (s0 : TileState) (h : s0 ≠ .LOADED) :
    (construct s0).blankUploads = 1 ∧ (construct s0).fullUploads = 0 ∧
      (construct s0).changeEvents = 0 ∧ (construct s0).listening = true ∧
      (step (construct s0) (.tileChange .LOADED)).fullUploads = 1 ∧
      (step (construct s0) (.tileChange .LOADED)).changeEvents = 1 ∧
      (∀ evs, (run (step (construct s0) .dispose) evs).fullUploads = 0) ∧
      (∀ n, (run (construct s0) (List.replicate n (Event.tileChange .LOADED))).fullUploads = n ∧
        (run (construct s0) (List.replicate n (Event.tileChange .LOADED))).changeEvents = n) := by
  have hc : construct s0 =
      { loaded := false, listening := true, disposed := false,
        blankUploads := 1, fullUploads := 0, changeEvents := 0 } := by
    unfold construct
    rw [if_neg h]
  rw [hc]
  refine ⟨rfl, rfl, rfl, rfl, rfl, rfl, ?_, ?_⟩
  · intro evs
    exact (run_not_listening _ rfl evs).1
  · intro n
    have h2 := run_loaded_replicate n
      { loaded := false, listening := true, disposed := false,
        blankUploads := 1, fullUploads := 0, changeEvents := 0 } rfl
    dsimp only at h2
    omega

/-- C3 witness: the amended lifecycle at a concrete LOADING tile, with the
dispose path exercised on a subsequent loaded notification and the
replicate clause at two notifications. -/
theorem c3_texture_lifecycle_witness :
    (construct .LOADING).blankUploads = 1 ∧ (construct .LOADING).fullUploads = 0 ∧
      (step (construct .LOADING) (.tileChange .LOADED)).fullUploads = 1 ∧
      (step (construct .LOADING) (.tileChange .LOADED)).changeEvents = 1 ∧
      (run (step (construct .LOADING) .dispose) [.tileChange .LOADED]).fullUploads = 0 ∧
      (run (construct .LOADING) (List.replicate 2 (Event.tileChange .LOADED))).fullUploads = 2 := by
  obtain ⟨h1, h2, h3, h4, h5, h6, h7, h8⟩ := c3_texture_lifecycle .LOADING (by decide)
  exact ⟨h1, h2, h5, h6, h7 [.tileChange .LOADED], (h8 2).1⟩

end TileTex
